import Mathlib

/-!
Shallow embedding of the STM32 IPL hardware JPEG codec pipeline
(`stm32ipl_image_io_jpg_hw.c`): the codec session context (`jpgCtx_t`),
the three HAL signal handlers, and the two entry points `readJPEGHW`
(via `JPEG_Encode`) and `saveJPEGHW`'s core.  External collaborators
(the HAL JPEG engine, FatFs storage, the jpeg_utils color converters)
are modelled as per-invocation oracles; every externally visible action
(storage I/O, HAL control calls, allocation, conversion) is recorded in
an explicit effect trace.
-/

namespace StmIpl

/-- Modulus of the C `uint32_t` type. -/
def U32 : Nat := 2 ^ 32

/-- Truncation to `uint32_t`. -/
def u32 (a : Nat) : Nat := a % U32

/-- `uint32_t` addition. -/
def u32add (a b : Nat) : Nat := (a + b) % U32

/-- `uint32_t` subtraction (two's complement wraparound). -/
def u32sub (a b : Nat) : Nat := (a + (U32 - b % U32)) % U32

/-- `#define YUV_DATA_BUFFER_SIZE 768` -/
def YUV_DATA_BUFFER_SIZE : Nat := 768

/-- `#define JPG_DATA_BUFFER_SIZE 512` -/
def JPG_DATA_BUFFER_SIZE : Nat := 512

/-- Address of the static `yuvDataBuffer` staging buffer (any fixed
non-null address; the code only passes the pointer around). -/
def yuvDataBufferAddr : Nat := 1024

/-- Address of the static `jpgDataBuffer` staging buffer. -/
def jpgDataBufferAddr : Nat := 2048

/-- HAL colorspace selector `JPEG_GRAYSCALE_COLORSPACE`.  The driver code
only compares these selectors for equality, so only their distinctness
matters. -/
def JPEG_GRAYSCALE_COLORSPACE : Nat := 0

/-- HAL colorspace selector `JPEG_YCBCR_COLORSPACE`. -/
def JPEG_YCBCR_COLORSPACE : Nat := 1

/-- HAL colorspace selector `JPEG_CMYK_COLORSPACE`. -/
def JPEG_CMYK_COLORSPACE : Nat := 2

/-- HAL chroma subsampling selector `JPEG_420_SUBSAMPLING`. -/
def JPEG_420_SUBSAMPLING : Nat := 0

/-- HAL chroma subsampling selector `JPEG_422_SUBSAMPLING`. -/
def JPEG_422_SUBSAMPLING : Nat := 1

/-- HAL chroma subsampling selector `JPEG_444_SUBSAMPLING`. -/
def JPEG_444_SUBSAMPLING : Nat := 2

/-- Modelled from the spec: pixel-format tag `IMAGE_BPP_GRAYSCALE` of the
OpenMV `imlib.h` header, which is not part of this slice.  The spec fixes
grayscale at 1 byte per pixel, and `STM32Ipl_DataSize` in the slice
returns `width*height*sizeof(uint8_t)` for this tag. -/
def IMAGE_BPP_GRAYSCALE : Nat := 1

/-- Modelled from the spec: pixel-format tag `IMAGE_BPP_RGB565` of
`imlib.h` (2 bytes per pixel, matching `STM32Ipl_DataSize`). -/
def IMAGE_BPP_RGB565 : Nat := 2

/-- Modelled from the spec: `JPEG_IMAGE_QUALITY_MIN` of jpeg_utils (the
engine's supported quality range; the exact value is irrelevant to the
claims, only that a range check exists). -/
def JPEG_IMAGE_QUALITY_MIN : Nat := 1

/-- Modelled from the spec: `JPEG_IMAGE_QUALITY_MAX` of jpeg_utils. -/
def JPEG_IMAGE_QUALITY_MAX : Nat := 100

/-- `jpegOp_t`: the operation kind stored in the session context
(`jpegOpDecoding = 0`, so a zeroed context reads as decoding). -/
inductive JpegOp where
  | decoding
  | encoding
  deriving DecidableEq, Repr

/-- `JPEG_ConfTypeDef`: the image parameters handed to / discovered by
the engine. -/
structure JpegConf where
  ColorSpace : Nat
  ChromaSubsampling : Nat
  ImageHeight : Nat
  ImageWidth : Nat
  ImageQuality : Nat
  deriving DecidableEq, Repr

/-- The all-zero `JPEG_ConfTypeDef` (after `memset`). -/
def zeroConf : JpegConf := ⟨0, 0, 0, 0, 0⟩

/-- `jpgCtx_t`: the codec session context.  Pointers are modelled as
natural numbers with `0` playing the role of `NULL`; the HAL handle and
the two function-pointer fields are carried by the oracles instead. -/
structure JpgCtx where
  file : Nat
  fileOffset : Nat
  info : JpegConf
  operation : JpegOp
  mcuIndex : Nat
  mcuTotal : Nat
  rgbDataPtr : Nat
  rgbDataSize : Nat
  yuvDataPtr : Nat
  yuvDataSize : Nat
  jpgDataPtr : Nat
  jpgDataSize : Nat
  deriving DecidableEq, Repr

/-- The session context after `memset(&jpgCtx, 0, sizeof(jpgCtx_t))`. -/
def zeroCtx : JpgCtx :=
  ⟨0, 0, zeroConf, JpegOp.decoding, 0, 0, 0, 0, 0, 0, 0, 0⟩

/-- `image_t` (the fields the codec touches): width, height, format tag
and data pointer (`0` = `NULL`). -/
structure ImageT where
  w : Nat
  h : Nat
  bpp : Nat
  data : Nat
  deriving DecidableEq, Repr

/-- `STM32Ipl_Init(img, w, h, format, data)` on a non-null image: plain
field assignment. -/
def STM32Ipl_Init (w h bpp data : Nat) : ImageT := ⟨w, h, bpp, data⟩

/-- The empty image `STM32Ipl_Init(img, 0, 0, 0, 0)` produces. -/
def emptyImage : ImageT := ⟨0, 0, 0, 0⟩

/-- Externally visible action of the driver, in program order. -/
inductive Effect where
  | halInit
  | halDeInit
  | halAbort
  | halPauseInput
  | halResumeInput
  | halPauseOutput
  | halResumeOutput
  | halConfigInput (ptr len : Nat)
  | halConfigOutput (ptr len : Nat)
  | halConfigEncoding
  | halStartDecode
  | halStartEncode
  | fLseek (target : Nat) (ok : Bool)
  | fRead (ptr maxLen got : Nat) (ok : Bool)
  | fWrite (ptr len : Nat) (ok : Bool)
  | xallocCall (size ptr : Nat)
  | convertCall (src dst unitIndex stride : Nat)
  deriving DecidableEq, Repr

/-- Oracle for one `HAL_JPEG_InfoReadyCallback` invocation: the `xalloc`
result (`0` = allocation failure) and the `ImageTotalMCUs` that
`JPEG_GetDecodeColorConvertFunc` reports for the discovered
parameters. -/
structure InfoReadyEnv where
  allocPtr : Nat
  mcuTotal : Nat
  deriving DecidableEq, Repr

/-- `HAL_JPEG_InfoReadyCallback` (decode only): size and allocate the
final pixel buffer — `width*height*1` byte for grayscale streams,
`width*height*2` bytes otherwise (`IMAGE_BPP_GRAYSCALE`/`IMAGE_BPP_RGB565`
are the byte-per-pixel factors); abort the engine on allocation failure;
store the discovered parameters; select the conversion routine and the
unit total. -/
def HAL_JPEG_InfoReadyCallback (ctx : JpgCtx) (pInfo : JpegConf)
    (env : InfoReadyEnv) : JpgCtx × List Effect :=
  let size := u32 (pInfo.ImageWidth * pInfo.ImageHeight *
    (if pInfo.ColorSpace = JPEG_GRAYSCALE_COLORSPACE then IMAGE_BPP_GRAYSCALE
     else IMAGE_BPP_RGB565))
  let effs := [Effect.xallocCall size env.allocPtr] ++
    (if env.allocPtr = 0 then [Effect.halAbort] else [])
  ({ ctx with rgbDataSize := size, rgbDataPtr := env.allocPtr,
              info := pInfo, mcuTotal := env.mcuTotal }, effs)

/-- Oracle for one `HAL_JPEG_GetDataCallback` invocation: the `f_lseek`
outcome and `f_read` result (decode branch), and the conversion
routine's return value and produced byte count (encode branch). -/
structure GetDataEnv where
  lseekOk : Bool
  readRes : Option Nat
  convRet : Nat
  convBytes : Nat
  deriving DecidableEq, Repr

/-- `HAL_JPEG_GetDataCallback`.  Decode branch: pause input; if the
engine consumed fewer bytes than the chunk just handed to it, rewind
`fileOffset` by the unconsumed remainder (uint32 arithmetic) and seek
there (seek failure aborts, but the code still falls through to the
read); read the next fixed-size chunk; on success advance `fileOffset`
by the bytes read, hand the chunk to the engine and resume; on read
failure abort.  Encode branch: while `mcuIndex < mcuTotal` convert the
next unit with the selected routine at stride `rgbDataSize` and resume;
otherwise hand the engine a zero-length input buffer. -/
def HAL_JPEG_GetDataCallback (ctx : JpgCtx) (processedBytes : Nat)
    (env : GetDataEnv) : JpgCtx × List Effect :=
  if ctx.operation = JpegOp.decoding then
    let (ctx1, seekEffs) :=
      if processedBytes ≠ ctx.jpgDataSize then
        let newOff := u32add (u32sub ctx.fileOffset ctx.jpgDataSize) processedBytes
        ({ ctx with fileOffset := newOff },
         [Effect.fLseek newOff env.lseekOk] ++
           (if env.lseekOk then [] else [Effect.halAbort]))
      else (ctx, [])
    match env.readRes with
    | some got =>
        ({ ctx1 with jpgDataSize := got, fileOffset := u32add ctx1.fileOffset got },
         Effect.halPauseInput :: seekEffs ++
           [Effect.fRead ctx1.jpgDataPtr JPG_DATA_BUFFER_SIZE got true,
            Effect.halConfigInput ctx1.jpgDataPtr got,
            Effect.halResumeInput])
    | none =>
        (ctx1,
         Effect.halPauseInput :: seekEffs ++
           [Effect.fRead ctx1.jpgDataPtr JPG_DATA_BUFFER_SIZE 0 false,
            Effect.halAbort])
  else
    if ctx.mcuIndex < ctx.mcuTotal then
      ({ ctx with mcuIndex := u32add ctx.mcuIndex env.convRet },
       [Effect.halPauseInput,
        Effect.convertCall ctx.rgbDataPtr ctx.yuvDataPtr ctx.mcuIndex ctx.rgbDataSize,
        Effect.halConfigInput ctx.yuvDataPtr env.convBytes,
        Effect.halResumeInput])
    else
      (ctx, [Effect.halConfigInput ctx.rgbDataPtr 0])

/-- Oracle for one `HAL_JPEG_DataReadyCallback` invocation: the
conversion routine's return value (decode branch) and the `f_write`
outcome (encode branch). -/
structure DataReadyEnv where
  convRet : Nat
  writeOk : Bool
  deriving DecidableEq, Repr

/-- `HAL_JPEG_DataReadyCallback`.  Decode branch: pause output; convert
the produced sample block into the pixel buffer at the current unit
index, advancing `mcuIndex`; hand the engine the full static sample
buffer as the next output target; resume.  Encode branch: pause output;
write the produced compressed block to storage; on success hand the
engine the full static bitstream buffer and resume, on failure abort. -/
def HAL_JPEG_DataReadyCallback (ctx : JpgCtx) (outDataPtr outDataSize : Nat)
    (env : DataReadyEnv) : JpgCtx × List Effect :=
  if ctx.operation = JpegOp.decoding then
    ({ ctx with mcuIndex := u32add ctx.mcuIndex env.convRet },
     [Effect.halPauseOutput,
      Effect.convertCall outDataPtr ctx.rgbDataPtr ctx.mcuIndex outDataSize,
      Effect.halConfigOutput ctx.yuvDataPtr ctx.yuvDataSize,
      Effect.halResumeOutput])
  else
    (ctx,
     [Effect.halPauseOutput, Effect.fWrite outDataPtr outDataSize env.writeOk] ++
       (if env.writeOk then
          [Effect.halConfigOutput ctx.jpgDataPtr JPG_DATA_BUFFER_SIZE,
           Effect.halResumeOutput]
        else [Effect.halAbort]))

/-- One asynchronous engine signal together with its oracle data. -/
inductive CallbackEvent where
  | infoReady (pInfo : JpegConf) (env : InfoReadyEnv)
  | getData (processedBytes : Nat) (env : GetDataEnv)
  | dataReady (outDataPtr outDataSize : Nat) (env : DataReadyEnv)
  deriving DecidableEq, Repr

/-- Dispatch one engine signal to its handler. -/
def stepCallback (ctx : JpgCtx) : CallbackEvent → JpgCtx × List Effect
  | CallbackEvent.infoReady p e => HAL_JPEG_InfoReadyCallback ctx p e
  | CallbackEvent.getData pb e => HAL_JPEG_GetDataCallback ctx pb e
  | CallbackEvent.dataReady op os e => HAL_JPEG_DataReadyCallback ctx op os e

/-- Run a sequence of engine signals, accumulating the effect trace. -/
def runCallbacks (ctx : JpgCtx) : List CallbackEvent → JpgCtx × List Effect
  | [] => (ctx, [])
  | ev :: evs =>
      let s := stepCallback ctx ev
      let r := runCallbacks s.1 evs
      (r.1, s.2 ++ r.2)

/-- `stm32ipl_err_t` (the constructors the codec uses). -/
inductive Err where
  | Ok
  | InvalidParameter
  | OutOfMemory
  | UnsupportedFormat
  | OpeningFile
  | ReadingFile
  | WritingFile
  | SeekingFile
  | OpNotCompleted
  | WrongSize
  deriving DecidableEq, Repr

/-- The per-unit source-pixel stride (`jpgCtx.rgbDataSize`) selected by
the if-chain at the top of `JPEG_Encode`, keyed by colorspace and chroma
subsampling; `dflt` is the previous field value, kept when no branch
matches (unreachable after parameter validation). -/
def encodeStride (colorSpace chromaSS dflt : Nat) : Nat :=
  if colorSpace = JPEG_YCBCR_COLORSPACE then
    if chromaSS = JPEG_420_SUBSAMPLING then 512
    else if chromaSS = JPEG_422_SUBSAMPLING then 256
    else if chromaSS = JPEG_444_SUBSAMPLING then 128
    else dflt
  else if colorSpace = JPEG_GRAYSCALE_COLORSPACE then 128
  else if colorSpace = JPEG_CMYK_COLORSPACE then 128
  else dflt

/-- Oracle for one `JPEG_Encode` run: outcomes of
`JPEG_GetEncodeColorConvertFunc` (success flag and reported unit total),
`HAL_JPEG_ConfigEncoding`, the first conversion-routine invocation
(units advanced and bytes produced), and the blocking
`HAL_JPEG_Encode` call. -/
structure EncodeEnv where
  getFnOk : Bool
  mcuTotal : Nat
  configOk : Bool
  convRet : Nat
  convBytes : Nat
  encodeOk : Bool
  deriving DecidableEq, Repr

/-- Result of a `JPEG_Encode` run: the returned error code, the session
context it leaves behind, and the effect trace of the body (callback
effects during the blocking call are accounted separately via
`runCallbacks`). -/
structure EncodeOutcome where
  res : Err
  ctx : JpgCtx
  effects : List Effect
  deriving DecidableEq, Repr

/-- `JPEG_Encode(fp, img, colorSpace, chromaSS, quality)`: validate the
pointers, the source pixel format, the colorspace, the subsampling, the
image dimensions (`WrongSize`) and the quality — all before any storage
or engine interaction — then populate the session context, select the
conversion stride and routine, configure the engine, convert the first
unit and start the blocking encode. -/
def JPEG_Encode (ctx0 : JpgCtx) (fpNull : Bool) (img? : Option ImageT)
    (colorSpace chromaSS quality : Nat) (env : EncodeEnv) : EncodeOutcome :=
  if fpNull ∨ img?.isNone then ⟨Err.InvalidParameter, ctx0, []⟩ else
  let img := img?.getD emptyImage
  if img.bpp ≠ IMAGE_BPP_RGB565 ∧ img.bpp ≠ IMAGE_BPP_GRAYSCALE then
    ⟨Err.UnsupportedFormat, ctx0, []⟩ else
  if colorSpace ≠ JPEG_GRAYSCALE_COLORSPACE ∧ colorSpace ≠ JPEG_YCBCR_COLORSPACE
      ∧ colorSpace ≠ JPEG_CMYK_COLORSPACE then
    ⟨Err.InvalidParameter, ctx0, []⟩ else
  if chromaSS ≠ JPEG_420_SUBSAMPLING ∧ chromaSS ≠ JPEG_422_SUBSAMPLING
      ∧ chromaSS ≠ JPEG_444_SUBSAMPLING then
    ⟨Err.InvalidParameter, ctx0, []⟩ else
  if img.w % 8 ≠ 0 ∨ img.h % 8 ≠ 0
      ∨ (img.w % 16 ≠ 0 ∧ colorSpace = JPEG_YCBCR_COLORSPACE
          ∧ chromaSS ≠ JPEG_444_SUBSAMPLING)
      ∨ (img.h % 16 ≠ 0 ∧ colorSpace = JPEG_YCBCR_COLORSPACE
          ∧ chromaSS = JPEG_420_SUBSAMPLING) then
    ⟨Err.WrongSize, ctx0, []⟩ else
  if quality < JPEG_IMAGE_QUALITY_MIN ∨ quality > JPEG_IMAGE_QUALITY_MAX then
    ⟨Err.InvalidParameter, ctx0, []⟩ else
  let ctx1 : JpgCtx :=
    { ctx0 with file := 1, fileOffset := 0,
                info := ⟨colorSpace, chromaSS, img.h, img.w, quality⟩,
                operation := JpegOp.encoding,
                mcuIndex := 0, mcuTotal := 0,
                jpgDataPtr := jpgDataBufferAddr,
                jpgDataSize := JPG_DATA_BUFFER_SIZE }
  let ctx2 : JpgCtx :=
    { ctx1 with rgbDataSize := encodeStride colorSpace chromaSS ctx1.rgbDataSize }
  if ¬env.getFnOk then ⟨Err.OpNotCompleted, ctx2, []⟩ else
  let ctx3 : JpgCtx := { ctx2 with mcuTotal := env.mcuTotal }
  if ¬env.configOk then ⟨Err.OpNotCompleted, ctx3, [Effect.halConfigEncoding]⟩ else
  let ctx4 : JpgCtx :=
    { ctx3 with rgbDataPtr := img.data,
                yuvDataSize := YUV_DATA_BUFFER_SIZE,
                yuvDataPtr := yuvDataBufferAddr }
  let ctx5 : JpgCtx := { ctx4 with mcuIndex := u32add ctx4.mcuIndex env.convRet }
  ⟨if env.encodeOk then Err.Ok else Err.OpNotCompleted, ctx5,
   [Effect.halConfigEncoding,
    Effect.convertCall img.data yuvDataBufferAddr 0 ctx4.rgbDataSize,
    Effect.halStartEncode]⟩

/-- Oracle for one `readJPEGHW` run: the `f_lseek(fp, 0)` outcome, the
first `f_read` result (`none` = failure), the engine signals raised
during the blocking `HAL_JPEG_Decode` call, and that call's final
status. -/
structure ReadEnv where
  seekOk : Bool
  firstRead : Option Nat
  events : List CallbackEvent
  decodeOk : Bool
  deriving DecidableEq, Repr

/-- Result of a `readJPEGHW` run: the returned error code, the final
value of the caller's image (`none` when the image pointer was null),
the final global session context, and the effect trace. -/
structure ReadOutcome where
  res : Err
  img : Option ImageT
  ctx : JpgCtx
  effects : List Effect
  deriving DecidableEq, Repr

/-- The session context after `readJPEGHW`'s driver re-initialization
(context zeroed) and decode-field population, before the first read. -/
def readPreReadCtx : JpgCtx :=
  { zeroCtx with file := 1,
                 operation := JpegOp.decoding,
                 mcuIndex := 0, mcuTotal := 0,
                 rgbDataPtr := 0, rgbDataSize := 0,
                 yuvDataPtr := yuvDataBufferAddr,
                 yuvDataSize := YUV_DATA_BUFFER_SIZE,
                 jpgDataPtr := jpgDataBufferAddr,
                 jpgDataSize := JPG_DATA_BUFFER_SIZE }

/-- The session context right after `readJPEGHW`'s setup: first chunk of
`got` bytes read into the bitstream buffer and `fileOffset` recorded as
that count. -/
def readSetupCtx (got : Nat) : JpgCtx :=
  { readPreReadCtx with jpgDataSize := got, fileOffset := got }

/-- The image published on decode success: discovered width/height, the
format implied by the discovered colorspace, and the pixel buffer. -/
def decodedImage (ctx : JpgCtx) : ImageT :=
  STM32Ipl_Init ctx.info.ImageWidth ctx.info.ImageHeight
    (if ctx.info.ColorSpace = JPEG_GRAYSCALE_COLORSPACE then IMAGE_BPP_GRAYSCALE
     else IMAGE_BPP_RGB565)
    ctx.rgbDataPtr

/-- `readJPEGHW(img, fp)`: null checks; reset the output image to empty;
seek storage to offset 0; initialize the driver (zeroing the context);
populate the decode session fields pointing at the static staging
buffers; read the first chunk (failure returns `ReadingFile` directly,
with no de-initialization); run the blocking decode during which the
engine signals fire; publish the decoded image only on success;
de-initialize the driver (zeroing the context) and return. -/
def readJPEGHW (ctx0 : JpgCtx) (img0 : Option ImageT) (fpNull : Bool)
    (env : ReadEnv) : ReadOutcome :=
  if img0.isNone ∨ fpNull then ⟨Err.InvalidParameter, img0, ctx0, []⟩ else
  if ¬env.seekOk then
    ⟨Err.SeekingFile, some emptyImage, ctx0, [Effect.fLseek 0 false]⟩ else
  match env.firstRead with
  | none =>
      ⟨Err.ReadingFile, some emptyImage, readPreReadCtx,
       [Effect.fLseek 0 true, Effect.halInit,
        Effect.fRead jpgDataBufferAddr JPG_DATA_BUFFER_SIZE 0 false]⟩
  | some got =>
      let run := runCallbacks (readSetupCtx got) env.events
      let res := if env.decodeOk then Err.Ok else Err.OpNotCompleted
      let imgF := if env.decodeOk then decodedImage run.1 else emptyImage
      ⟨res, some imgF, zeroCtx,
       [Effect.fLseek 0 true, Effect.halInit,
        Effect.fRead jpgDataBufferAddr JPG_DATA_BUFFER_SIZE got true,
        Effect.halStartDecode] ++ run.2 ++ [Effect.halDeInit]⟩

/-- Boundedness of one signal's conversion oracle: the jpeg_utils
conversion routines never advance past the image's total unit count (for
a ctx whose counters are `uint32_t` values), and a header-ready signal
reports a unit total that is a `uint32_t` covering the units converted
so far (zero at that point in a real run). -/
def eventBounded (ctx : JpgCtx) : CallbackEvent → Bool
  | CallbackEvent.infoReady _ e =>
      decide (ctx.mcuIndex ≤ e.mcuTotal ∧ e.mcuTotal < U32)
  | CallbackEvent.getData _ e =>
      if ctx.operation = JpegOp.encoding ∧ ctx.mcuIndex < ctx.mcuTotal then
        decide (ctx.mcuIndex + e.convRet ≤ ctx.mcuTotal)
      else true
  | CallbackEvent.dataReady _ _ e =>
      if ctx.operation = JpegOp.decoding then
        decide (ctx.mcuIndex + e.convRet ≤ ctx.mcuTotal)
      else true

/-- Boundedness of the conversion oracles along a whole signal
sequence. -/
def convBounded (ctx : JpgCtx) : List CallbackEvent → Bool
  | [] => true
  | ev :: evs => eventBounded ctx ev && convBounded (stepCallback ctx ev).1 evs

/-- No header-ready signal in the sequence (the engine raises
header-ready only while decoding). -/
def noInfoReady : List CallbackEvent → Bool
  | [] => true
  | CallbackEvent.infoReady _ _ :: _ => false
  | _ :: evs => noInfoReady evs

/-- An engine/storage oracle where every external call succeeds. -/
def allOkEncEnv : EncodeEnv := ⟨true, 4, true, 1, 384, true⟩

/-- Splitting a run of engine signals at any point composes the final
contexts and concatenates the effect traces. -/
theorem runCallbacks_append (ctx : JpgCtx) (l1 l2 : List CallbackEvent) :
    runCallbacks ctx (l1 ++ l2) =
      ((runCallbacks (runCallbacks ctx l1).1 l2).1,
       (runCallbacks ctx l1).2 ++ (runCallbacks (runCallbacks ctx l1).1 l2).2) := by
  induction l1 generalizing ctx with
  | nil => simp [runCallbacks]
  | cons ev evs ih => simp [runCallbacks, ih]

/-- C2: calling the encode entry point (`JPEG_Encode`, the function
taking the chroma-subsampling parameter) on a 9x8 image with 4:2:0
subsampling returns `WrongSize`, leaves the session context untouched
and performs no effect at all — in particular no storage I/O and no
engine interaction. -/
theorem c2_encode_9x8_420_wrongsize_no_io (ctx0 : JpgCtx) (q d : Nat)
    (env : EncodeEnv) :
    JPEG_Encode ctx0 false (some ⟨9, 8, IMAGE_BPP_RGB565, d⟩)
        JPEG_YCBCR_COLORSPACE JPEG_420_SUBSAMPLING q env =
      ⟨Err.WrongSize, ctx0, []⟩ := by
  simp [JPEG_Encode, IMAGE_BPP_RGB565, IMAGE_BPP_GRAYSCALE]

/-- C5 counterexample: an 8x8 image encoded with the CMYK colorspace and
4:2:0 subsampling has a width that is not a multiple of 16, so the claim
demands `WrongSize`; the code applies the 16-multiple rules only to the
YCbCr colorspace and (with an all-succeeding engine) returns `Ok`. -/
theorem c5_cmyk_420_counterexample :
    (JPEG_Encode zeroCtx false (some ⟨8, 8, IMAGE_BPP_RGB565, 7⟩)
        JPEG_CMYK_COLORSPACE JPEG_420_SUBSAMPLING 90 allOkEncEnv).res = Err.Ok
    ∧ (JPEG_Encode zeroCtx false (some ⟨8, 8, IMAGE_BPP_RGB565, 7⟩)
        JPEG_CMYK_COLORSPACE JPEG_420_SUBSAMPLING 90 allOkEncEnv).res ≠
        Err.WrongSize := by
  constructor <;> decide

/-- C5 (amended): for non-null arguments with a supported pixel format
and in-range colorspace and subsampling selectors, `JPEG_Encode` returns
`WrongSize` exactly when width or height is not a multiple of 8, or —
only for the YCbCr colorspace — width is not a multiple of 16 under
4:2:0/4:2:2 subsampling, or height is not a multiple of 16 under 4:2:0
subsampling; and on that return no effect (in particular no I/O) has
occurred and the session context is untouched. -/
theorem c5_wrongsize_iff (ctx0 : JpgCtx) (img : ImageT) (cs ss q : Nat)
    (env : EncodeEnv)
    (hbpp : img.bpp = IMAGE_BPP_RGB565 ∨ img.bpp = IMAGE_BPP_GRAYSCALE)
    (hcs : cs = JPEG_GRAYSCALE_COLORSPACE ∨ cs = JPEG_YCBCR_COLORSPACE
      ∨ cs = JPEG_CMYK_COLORSPACE)
    (hss : ss = JPEG_420_SUBSAMPLING ∨ ss = JPEG_422_SUBSAMPLING
      ∨ ss = JPEG_444_SUBSAMPLING) :
    ((JPEG_Encode ctx0 false (some img) cs ss q env).res = Err.WrongSize ↔
      (img.w % 8 ≠ 0 ∨ img.h % 8 ≠ 0
        ∨ (img.w % 16 ≠ 0 ∧ cs = JPEG_YCBCR_COLORSPACE
            ∧ ss ≠ JPEG_444_SUBSAMPLING)
        ∨ (img.h % 16 ≠ 0 ∧ cs = JPEG_YCBCR_COLORSPACE
            ∧ ss = JPEG_420_SUBSAMPLING)))
    ∧ ((JPEG_Encode ctx0 false (some img) cs ss q env).res = Err.WrongSize →
        JPEG_Encode ctx0 false (some img) cs ss q env =
          ⟨Err.WrongSize, ctx0, []⟩) := by
  have hfmt : ¬(img.bpp ≠ IMAGE_BPP_RGB565 ∧ img.bpp ≠ IMAGE_BPP_GRAYSCALE) := by
    tauto
  have hcs2 : ¬(cs ≠ JPEG_GRAYSCALE_COLORSPACE ∧ cs ≠ JPEG_YCBCR_COLORSPACE
      ∧ cs ≠ JPEG_CMYK_COLORSPACE) := by tauto
  have hss2 : ¬(ss ≠ JPEG_420_SUBSAMPLING ∧ ss ≠ JPEG_422_SUBSAMPLING
      ∧ ss ≠ JPEG_444_SUBSAMPLING) := by tauto
  by_cases hsz : img.w % 8 ≠ 0 ∨ img.h % 8 ≠ 0
      ∨ (img.w % 16 ≠ 0 ∧ cs = JPEG_YCBCR_COLORSPACE ∧ ss ≠ JPEG_444_SUBSAMPLING)
      ∨ (img.h % 16 ≠ 0 ∧ cs = JPEG_YCBCR_COLORSPACE ∧ ss = JPEG_420_SUBSAMPLING)
  · simp [JPEG_Encode, hfmt, hcs2, hss2, hsz]
  · by_cases hq : q < JPEG_IMAGE_QUALITY_MIN ∨ q > JPEG_IMAGE_QUALITY_MAX
    · simp [JPEG_Encode, hfmt, hcs2, hss2, hsz, hq]
    · by_cases hfn : env.getFnOk
      · by_cases hcfg : env.configOk
        · by_cases henc : env.encodeOk <;>
            simp [JPEG_Encode, hfmt, hcs2, hss2, hsz, hq, hfn, hcfg, henc]
        · simp [JPEG_Encode, hfmt, hcs2, hss2, hsz, hq, hfn, hcfg]
      · simp [JPEG_Encode, hfmt, hcs2, hss2, hsz, hq, hfn]

/-- C5 witness: a 24x8 YCbCr 4:2:0 image (width a multiple of 8 but not
of 16) is rejected with `WrongSize` and no effects. -/
theorem c5_wrongsize_iff_witness :
    (JPEG_Encode zeroCtx false (some ⟨24, 8, IMAGE_BPP_RGB565, 7⟩)
        JPEG_YCBCR_COLORSPACE JPEG_420_SUBSAMPLING 90 allOkEncEnv).res =
      Err.WrongSize :=
  (c5_wrongsize_iff zeroCtx ⟨24, 8, IMAGE_BPP_RGB565, 7⟩
      JPEG_YCBCR_COLORSPACE JPEG_420_SUBSAMPLING 90 allOkEncEnv
      (Or.inl rfl) (Or.inr (Or.inl rfl)) (Or.inl rfl)).1.mpr (by decide)

/-- C6: when the header-ready handler fires with discovered parameters
whose pixel count fits `uint32_t` arithmetic, the pixel buffer it sizes
and allocates is exactly `width*height*1` bytes for a grayscale stream
and `width*height*2` bytes otherwise, and on allocation failure the
engine is aborted (while a successful allocation never aborts). -/
theorem c6_info_ready_buffer_size (ctx : JpgCtx) (pInfo : JpegConf)
    (env : InfoReadyEnv)
    (hov : pInfo.ImageWidth * pInfo.ImageHeight * 2 < U32) :
    ((HAL_JPEG_InfoReadyCallback ctx pInfo env).1.rgbDataSize =
      pInfo.ImageWidth * pInfo.ImageHeight *
        (if pInfo.ColorSpace = JPEG_GRAYSCALE_COLORSPACE then 1 else 2))
    ∧ ((HAL_JPEG_InfoReadyCallback ctx pInfo env).1.rgbDataPtr = env.allocPtr)
    ∧ (env.allocPtr = 0 →
        Effect.halAbort ∈ (HAL_JPEG_InfoReadyCallback ctx pInfo env).2)
    ∧ (env.allocPtr ≠ 0 →
        Effect.halAbort ∉ (HAL_JPEG_InfoReadyCallback ctx pInfo env).2) := by
  have e1 : pInfo.ImageWidth * pInfo.ImageHeight % U32 =
      pInfo.ImageWidth * pInfo.ImageHeight := Nat.mod_eq_of_lt (by omega)
  have e2 : pInfo.ImageWidth * pInfo.ImageHeight * 2 % U32 =
      pInfo.ImageWidth * pInfo.ImageHeight * 2 := Nat.mod_eq_of_lt (by omega)
  refine ⟨?_, ?_, ?_, ?_⟩
  · by_cases hg : pInfo.ColorSpace = JPEG_GRAYSCALE_COLORSPACE <;>
      simp [HAL_JPEG_InfoReadyCallback, hg, u32, IMAGE_BPP_GRAYSCALE,
        IMAGE_BPP_RGB565, e1, e2]
  · simp [HAL_JPEG_InfoReadyCallback]
  · intro h0
    simp [HAL_JPEG_InfoReadyCallback, h0]
  · intro h0
    simp [HAL_JPEG_InfoReadyCallback, h0]

/-- C6 witness: a 64x64 grayscale header yields a 4096-byte buffer; the
non-null allocation does not abort the engine. -/
theorem c6_info_ready_buffer_size_witness :
    (HAL_JPEG_InfoReadyCallback zeroCtx ⟨0, 0, 64, 64, 0⟩ ⟨7, 16⟩).1.rgbDataSize
        = 4096
    ∧ Effect.halAbort ∉ (HAL_JPEG_InfoReadyCallback zeroCtx ⟨0, 0, 64, 64, 0⟩
        ⟨7, 16⟩).2 := by
  have h := c6_info_ready_buffer_size zeroCtx ⟨0, 0, 64, 64, 0⟩ ⟨7, 16⟩ (by decide)
  exact ⟨by simpa using h.1, h.2.2.2 (by decide)⟩

/-- C3 counterexample: with a valid image pointer and file, a
successful seek, and a first chunk read that fails, `readJPEGHW` returns
`ReadingFile` without ever de-initializing the engine (no `halDeInit`
effect), and leaves the session context populated rather than zeroed. -/
theorem c3_read_error_no_deinit :
    (readJPEGHW zeroCtx (some emptyImage) false ⟨true, none, [], true⟩).res =
      Err.ReadingFile
    ∧ Effect.halDeInit ∉
        (readJPEGHW zeroCtx (some emptyImage) false ⟨true, none, [], true⟩).effects
    ∧ (readJPEGHW zeroCtx (some emptyImage) false ⟨true, none, [], true⟩).ctx ≠
        zeroCtx := by
  refine ⟨by decide, by decide, by decide⟩

/-- C3 (amended): for every call passing the null-pointer and seek
checks whose first chunk read succeeds, the engine is de-initialized
(`halDeInit` is the final effect and the session context is zeroed)
before returning, on success and failure alike; on the path where the
first chunk read fails, the entry point returns `ReadingFile` without
de-initializing. -/
theorem c3_deinit_amended (ctx0 : JpgCtx) (img0 : ImageT) (env : ReadEnv)
    (hseek : env.seekOk = true) :
    (∀ r, env.firstRead = some r →
        Effect.halDeInit ∈ (readJPEGHW ctx0 (some img0) false env).effects
        ∧ (readJPEGHW ctx0 (some img0) false env).ctx = zeroCtx)
    ∧ (env.firstRead = none →
        (readJPEGHW ctx0 (some img0) false env).res = Err.ReadingFile
        ∧ Effect.halDeInit ∉ (readJPEGHW ctx0 (some img0) false env).effects) := by
  constructor
  · intro r hr
    simp [readJPEGHW, hseek, hr]
  · intro hr
    simp [readJPEGHW, hseek, hr]

/-- C3 witness: a successful two-byte first read always reaches the
de-initialization, and the read-failure path reports `ReadingFile`. -/
theorem c3_deinit_amended_witness :
    (Effect.halDeInit ∈
        (readJPEGHW zeroCtx (some emptyImage) false ⟨true, some 2, [], true⟩).effects
      ∧ (readJPEGHW zeroCtx (some emptyImage) false ⟨true, some 2, [], true⟩).ctx =
          zeroCtx)
    ∧ (readJPEGHW zeroCtx (some emptyImage) false ⟨true, none, [], false⟩).res =
        Err.ReadingFile :=
  ⟨(c3_deinit_amended zeroCtx emptyImage ⟨true, some 2, [], true⟩ rfl).1 2 rfl,
   ((c3_deinit_amended zeroCtx emptyImage ⟨true, none, [], false⟩ rfl).2 rfl).1⟩

/-- C7 counterexample: a call with a non-empty image structure and a
null file pointer fails with `InvalidParameter` but leaves the caller's
image exactly as it was — not in the empty state the claim requires of
every error return. -/
theorem c7_invalid_parameter_image_kept :
    (readJPEGHW zeroCtx (some ⟨8, 8, 2, 7⟩) true ⟨true, none, [], true⟩).res =
      Err.InvalidParameter
    ∧ (readJPEGHW zeroCtx (some ⟨8, 8, 2, 7⟩) true ⟨true, none, [], true⟩).img =
        some ⟨8, 8, 2, 7⟩
    ∧ (readJPEGHW zeroCtx (some ⟨8, 8, 2, 7⟩) true ⟨true, none, [], true⟩).img ≠
        some emptyImage := by
  refine ⟨by decide, by decide, by decide⟩

/-- C7 (amended): for every call that passes the null-pointer checks,
any failing return leaves the caller's image in the empty state (zero
width, height, format and a null data pointer), and the discovered
parameters and pixel buffer are published only on the success path (on
which the image is exactly the one built from the post-run session
context); on a null-argument `InvalidParameter` return the image is
simply left untouched. -/
theorem c7_output_empty_on_failure (ctx0 : JpgCtx) (img0 : ImageT)
    (env : ReadEnv) :
    ((readJPEGHW ctx0 (some img0) false env).res ≠ Err.Ok →
        (readJPEGHW ctx0 (some img0) false env).img = some emptyImage)
    ∧ (∀ r, env.firstRead = some r →
        (readJPEGHW ctx0 (some img0) false env).res = Err.Ok →
        (readJPEGHW ctx0 (some img0) false env).img =
          some (decodedImage (runCallbacks (readSetupCtx r) env.events).1)) := by
  by_cases hseek : env.seekOk
  · cases hr : env.firstRead with
    | none =>
        constructor
        · intro _
          simp [readJPEGHW, hseek, hr]
        · intro r hr2
          simp [hr] at hr2
    | some r =>
        by_cases hok : env.decodeOk
        · constructor
          · intro hne
            exfalso
            apply hne
            simp [readJPEGHW, hseek, hr, hok]
          · intro r2 hr2 _
            have hrr : r2 = r := (Option.some.inj hr2).symm
            subst hrr
            simp [readJPEGHW, hseek, hr, hok]
        · constructor
          · intro _
            simp [readJPEGHW, hseek, hr, hok]
          · intro r2 hr2 hres
            exfalso
            simp [readJPEGHW, hseek, hr, hok] at hres
  · constructor
    · intro _
      simp [readJPEGHW, hseek]
    · intro r hr hres
      exfalso
      simp [readJPEGHW, hseek] at hres

/-- C7 witness: a failing decode (engine reports failure) leaves the
image empty, and a successful empty-signal run publishes the image built
from the post-run context. -/
theorem c7_output_empty_on_failure_witness :
    (readJPEGHW zeroCtx (some ⟨8, 8, 2, 7⟩) false ⟨true, some 2, [], false⟩).img =
      some emptyImage
    ∧ (readJPEGHW zeroCtx (some ⟨8, 8, 2, 7⟩) false ⟨true, some 2, [], true⟩).img =
        some (decodedImage (runCallbacks (readSetupCtx 2) []).1) :=
  ⟨(c7_output_empty_on_failure zeroCtx ⟨8, 8, 2, 7⟩ ⟨true, some 2, [], false⟩).1
      (by decide),
   (c7_output_empty_on_failure zeroCtx ⟨8, 8, 2, 7⟩ ⟨true, some 2, [], true⟩).2 2
      rfl (by decide)⟩

/-- Numeric value of the `uint32_t` modulus. -/
theorem U32_eq : U32 = 4294967296 := rfl

/-- C1: in the decode need-input handler, when the engine reports having
consumed `k` of the `n`-byte chunk last handed to it with `k < n`, the
handler seeks storage to `offset_before_chunk + k` (where the current
`fileOffset` is `offset_before_chunk + n`) before issuing the next read,
and after a successful read of `r` bytes the offset is exactly the seek
target plus `r`; when the whole chunk was consumed (`k = n`) no seek is
issued and a successful read advances the offset by exactly `r`.  The
side conditions state that the context's `uint32_t` fields came from a
real run: the offset covers the chunk and the arithmetic does not
wrap. -/
theorem c1_offset_correction (ctx : JpgCtx) (k r : Nat) (env : GetDataEnv)
    (hop : ctx.operation = JpegOp.decoding)
    (hoff : ctx.jpgDataSize ≤ ctx.fileOffset)
    (hlt : ctx.fileOffset + r < U32)
    (hseek : env.lseekOk = true)
    (hread : env.readRes = some r) :
    (k < ctx.jpgDataSize →
      HAL_JPEG_GetDataCallback ctx k env =
        ({ ctx with fileOffset := ctx.fileOffset - ctx.jpgDataSize + k + r,
                    jpgDataSize := r },
         [Effect.halPauseInput,
          Effect.fLseek (ctx.fileOffset - ctx.jpgDataSize + k) true,
          Effect.fRead ctx.jpgDataPtr JPG_DATA_BUFFER_SIZE r true,
          Effect.halConfigInput ctx.jpgDataPtr r,
          Effect.halResumeInput]))
    ∧ (k = ctx.jpgDataSize →
      HAL_JPEG_GetDataCallback ctx k env =
        ({ ctx with fileOffset := ctx.fileOffset + r, jpgDataSize := r },
         [Effect.halPauseInput,
          Effect.fRead ctx.jpgDataPtr JPG_DATA_BUFFER_SIZE r true,
          Effect.halConfigInput ctx.jpgDataPtr r,
          Effect.halResumeInput])) := by
  rw [U32_eq] at hlt
  constructor
  · intro hk
    have hne : k ≠ ctx.jpgDataSize := Nat.ne_of_lt hk
    have hs : u32sub ctx.fileOffset ctx.jpgDataSize =
        ctx.fileOffset - ctx.jpgDataSize := by
      simp [u32sub, U32_eq]
      omega
    have ha1 : u32add (ctx.fileOffset - ctx.jpgDataSize) k =
        ctx.fileOffset - ctx.jpgDataSize + k := by
      simp [u32add, U32_eq]
      omega
    have ha2 : u32add (ctx.fileOffset - ctx.jpgDataSize + k) r =
        ctx.fileOffset - ctx.jpgDataSize + k + r := by
      simp [u32add, U32_eq]
      omega
    simp [HAL_JPEG_GetDataCallback, hop, hread, hseek, hne, hs, ha1, ha2]
  · intro hk
    have ha3 : u32add ctx.fileOffset r = ctx.fileOffset + r := by
      simp [u32add, U32_eq]
      omega
    simp [HAL_JPEG_GetDataCallback, hop, hread, hseek, hk, ha3]

/-- C1 witness: a 512-byte chunk of which the engine consumed only 100
bytes makes the handler seek to offset 100 and, after reading 50 bytes,
leaves the offset at 150. -/
theorem c1_offset_correction_witness :
    HAL_JPEG_GetDataCallback (readSetupCtx 512) 100 ⟨true, some 50, 0, 0⟩ =
      ({ readSetupCtx 512 with fileOffset := 512 - 512 + 100 + 50,
                               jpgDataSize := 50 },
       [Effect.halPauseInput,
        Effect.fLseek (512 - 512 + 100) true,
        Effect.fRead (readSetupCtx 512).jpgDataPtr JPG_DATA_BUFFER_SIZE 50 true,
        Effect.halConfigInput (readSetupCtx 512).jpgDataPtr 50,
        Effect.halResumeInput]) :=
  (c1_offset_correction (readSetupCtx 512) 100 50 ⟨true, some 50, 0, 0⟩
      rfl (by decide) (by decide) rfl rfl).1 (by decide)

/-- One engine signal preserves `mcuIndex ≤ mcuTotal` (and the
`uint32_t` range of the total) whenever its conversion oracle is
bounded. -/
theorem stepCallback_mcu_inv (ctx : JpgCtx) (ev : CallbackEvent)
    (hinv : ctx.mcuIndex ≤ ctx.mcuTotal) (hlt : ctx.mcuTotal < U32)
    (hb : eventBounded ctx ev = true) :
    (stepCallback ctx ev).1.mcuIndex ≤ (stepCallback ctx ev).1.mcuTotal
    ∧ (stepCallback ctx ev).1.mcuTotal < U32 := by
  cases ev with
  | infoReady p e =>
      simp [eventBounded] at hb
      simpa [stepCallback, HAL_JPEG_InfoReadyCallback] using hb
  | getData pb e =>
      cases hop : ctx.operation with
      | decoding =>
          cases hre : e.readRes <;>
            by_cases hne : pb = ctx.jpgDataSize <;>
            simp [stepCallback, HAL_JPEG_GetDataCallback, hop, hre, hne, hinv, hlt]
      | encoding =>
          by_cases hil : ctx.mcuIndex < ctx.mcuTotal
          · have hb2 : ctx.mcuIndex + e.convRet ≤ ctx.mcuTotal := by
              simpa [eventBounded, hop, hil] using hb
            rw [U32_eq] at hlt
            simp [stepCallback, HAL_JPEG_GetDataCallback, hop, hil, u32add,
              U32_eq, hlt]
            omega
          · simp [stepCallback, HAL_JPEG_GetDataCallback, hop, hil, hinv, hlt]
  | dataReady op os e =>
      cases hop : ctx.operation with
      | decoding =>
          have hb2 : ctx.mcuIndex + e.convRet ≤ ctx.mcuTotal := by
            simpa [eventBounded, hop] using hb
          rw [U32_eq] at hlt
          simp [stepCallback, HAL_JPEG_DataReadyCallback, hop, u32add, U32_eq, hlt]
          omega
      | encoding =>
          simp [stepCallback, HAL_JPEG_DataReadyCallback, hop, hinv, hlt]

/-- The unit-counter invariant is preserved along every bounded run of
engine signals. -/
theorem runCallbacks_mcu_inv (ctx : JpgCtx) (evs : List CallbackEvent)
    (hinv : ctx.mcuIndex ≤ ctx.mcuTotal) (hlt : ctx.mcuTotal < U32)
    (hb : convBounded ctx evs = true) :
    (runCallbacks ctx evs).1.mcuIndex ≤ (runCallbacks ctx evs).1.mcuTotal
    ∧ (runCallbacks ctx evs).1.mcuTotal < U32 := by
  induction evs generalizing ctx with
  | nil => simpa [runCallbacks] using ⟨hinv, hlt⟩
  | cons ev evs ih =>
      rw [convBounded, Bool.and_eq_true] at hb
      have hstep := stepCallback_mcu_inv ctx ev hinv hlt hb.1
      simpa [runCallbacks] using ih _ hstep.1 hstep.2 hb.2

/-- C4: starting from any session context whose unit counters satisfy
`unit_index ≤ unit_total` (as every freshly configured operation does),
every run of engine signals with bounded conversion oracles keeps
`0 ≤ unit_index ≤ unit_total` after every handler invocation; moreover,
on encode the need-input handler converts a further unit exactly while
`unit_index < unit_total`, and once the total is reached it hands the
engine a zero-length input buffer as the end-of-input marker and does
nothing else. -/
theorem c4_unit_counter_invariant (ctx : JpgCtx) (evs : List CallbackEvent)
    (hinv : ctx.mcuIndex ≤ ctx.mcuTotal) (hlt : ctx.mcuTotal < U32)
    (hb : convBounded ctx evs = true) :
    (0 ≤ (runCallbacks ctx evs).1.mcuIndex
      ∧ (runCallbacks ctx evs).1.mcuIndex ≤ (runCallbacks ctx evs).1.mcuTotal)
    ∧ (∀ pb env, ctx.operation = JpegOp.encoding → ctx.mcuIndex < ctx.mcuTotal →
        Effect.convertCall ctx.rgbDataPtr ctx.yuvDataPtr ctx.mcuIndex ctx.rgbDataSize
          ∈ (HAL_JPEG_GetDataCallback ctx pb env).2)
    ∧ (∀ pb env, ctx.operation = JpegOp.encoding → ctx.mcuTotal ≤ ctx.mcuIndex →
        HAL_JPEG_GetDataCallback ctx pb env =
          (ctx, [Effect.halConfigInput ctx.rgbDataPtr 0])) := by
  refine ⟨⟨Nat.zero_le _, (runCallbacks_mcu_inv ctx evs hinv hlt hb).1⟩, ?_, ?_⟩
  · intro pb env hop hil
    simp [HAL_JPEG_GetDataCallback, hop, hil]
  · intro pb env hop hge
    simp [HAL_JPEG_GetDataCallback, hop, Nat.not_lt.mpr hge]

/-- C4 witness: an encode run over two units with a bounded conversion
oracle keeps the counter at its total and never past it, converts while
below the total, and emits the zero-length end-of-input marker once the
total is reached. -/
theorem c4_unit_counter_invariant_witness :
    (runCallbacks { zeroCtx with operation := JpegOp.encoding, mcuTotal := 2 }
        [CallbackEvent.getData 0 ⟨true, none, 1, 64⟩,
         CallbackEvent.getData 0 ⟨true, none, 1, 64⟩,
         CallbackEvent.getData 0 ⟨true, none, 9, 64⟩]).1.mcuIndex ≤
      (runCallbacks { zeroCtx with operation := JpegOp.encoding, mcuTotal := 2 }
        [CallbackEvent.getData 0 ⟨true, none, 1, 64⟩,
         CallbackEvent.getData 0 ⟨true, none, 1, 64⟩,
         CallbackEvent.getData 0 ⟨true, none, 9, 64⟩]).1.mcuTotal ∧
    HAL_JPEG_GetDataCallback
        { zeroCtx with operation := JpegOp.encoding, mcuTotal := 2, mcuIndex := 2 }
        0 ⟨true, none, 9, 64⟩ =
      ({ zeroCtx with operation := JpegOp.encoding, mcuTotal := 2, mcuIndex := 2 },
       [Effect.halConfigInput 0 0]) :=
  ⟨(c4_unit_counter_invariant
      { zeroCtx with operation := JpegOp.encoding, mcuTotal := 2 }
      [CallbackEvent.getData 0 ⟨true, none, 1, 64⟩,
       CallbackEvent.getData 0 ⟨true, none, 1, 64⟩,
       CallbackEvent.getData 0 ⟨true, none, 9, 64⟩]
      (by decide) (by decide) (by decide)).1.2,
   (c4_unit_counter_invariant
      { zeroCtx with operation := JpegOp.encoding, mcuTotal := 2, mcuIndex := 2 }
      [] (by decide) (by decide) (by decide)).2.2 0 ⟨true, none, 9, 64⟩
      rfl (by decide)⟩

/-- During encode (no header-ready signal fires), one engine signal
preserves the operation kind, the conversion stride (`rgbDataSize`) and
the bitstream-buffer pointer, and every conversion invocation it makes
passes the current stride. -/
theorem stepCallback_encode_inv (ctx : JpgCtx) (ev : CallbackEvent)
    (hop : ctx.operation = JpegOp.encoding)
    (hev : noInfoReady [ev] = true) :
    (stepCallback ctx ev).1.operation = JpegOp.encoding
    ∧ (stepCallback ctx ev).1.rgbDataSize = ctx.rgbDataSize
    ∧ (stepCallback ctx ev).1.jpgDataPtr = ctx.jpgDataPtr
    ∧ (∀ s t i st, Effect.convertCall s t i st ∈ (stepCallback ctx ev).2 →
        st = ctx.rgbDataSize)
    ∧ (∀ p l, Effect.halConfigOutput p l ∈ (stepCallback ctx ev).2 →
        p = ctx.jpgDataPtr ∧ l = JPG_DATA_BUFFER_SIZE) := by
  cases ev with
  | infoReady p e => simp [noInfoReady] at hev
  | getData pb e =>
      by_cases hil : ctx.mcuIndex < ctx.mcuTotal <;>
        simp [stepCallback, HAL_JPEG_GetDataCallback, hop, hil]
  | dataReady op os e =>
      by_cases hw : e.writeOk <;>
        simp [stepCallback, HAL_JPEG_DataReadyCallback, hop, hw]

/-- An encode run of engine signals preserves the operation, the stride
and the bitstream pointer, passes the stride to every conversion
invocation, and hands the engine only the full static bitstream buffer
as a fresh output target. -/
theorem runCallbacks_encode_inv (ctx : JpgCtx) (evs : List CallbackEvent)
    (hop : ctx.operation = JpegOp.encoding)
    (hinfo : noInfoReady evs = true) :
    (runCallbacks ctx evs).1.operation = JpegOp.encoding
    ∧ (runCallbacks ctx evs).1.rgbDataSize = ctx.rgbDataSize
    ∧ (runCallbacks ctx evs).1.jpgDataPtr = ctx.jpgDataPtr
    ∧ (∀ s t i st, Effect.convertCall s t i st ∈ (runCallbacks ctx evs).2 →
        st = ctx.rgbDataSize)
    ∧ (∀ p l, Effect.halConfigOutput p l ∈ (runCallbacks ctx evs).2 →
        p = ctx.jpgDataPtr ∧ l = JPG_DATA_BUFFER_SIZE) := by
  induction evs generalizing ctx with
  | nil => simp [runCallbacks, hop]
  | cons ev evs ih =>
      have hev : noInfoReady [ev] = true := by
        cases ev <;> simp [noInfoReady] at hinfo ⊢
      have hrest : noInfoReady evs = true := by
        cases ev <;> simp [noInfoReady] at hinfo ⊢ <;> exact hinfo
      have hstep := stepCallback_encode_inv ctx ev hop hev
      have hih := ih (stepCallback ctx ev).1 hstep.1 hrest
      refine ⟨?_, ?_, ?_, ?_, ?_⟩
      · simpa [runCallbacks] using hih.1
      · rw [runCallbacks]
        rw [hih.2.1, hstep.2.1]
      · rw [runCallbacks]
        rw [hih.2.2.1, hstep.2.2.1]
      · intro s t i st hmem
        rw [runCallbacks] at hmem
        simp only [List.mem_append] at hmem
        cases hmem with
        | inl h => exact hstep.2.2.2.1 s t i st h
        | inr h =>
            have := hih.2.2.2.1 s t i st h
            rw [this, hstep.2.1]
      · intro p l hmem
        rw [runCallbacks] at hmem
        simp only [List.mem_append] at hmem
        cases hmem with
        | inl h => exact hstep.2.2.2.2 p l h
        | inr h =>
            have := hih.2.2.2.2 p l h
            rw [hstep.2.2.1] at this
            exact this

/-- C8: the per-unit source-pixel stride lookup of `JPEG_Encode` maps
YCbCr 4:2:0 to 512, YCbCr 4:2:2 to 256, and YCbCr 4:4:4, grayscale and
CMYK alike to 128; the stride installed in the session context and
passed to the first conversion of `JPEG_Encode` is exactly this lookup
value; and during the rest of an encode operation the stride field is
never changed and every conversion invocation receives it unchanged. -/
theorem c8_stride_lookup (d : Nat) (ctx0 : JpgCtx) (img : ImageT)
    (cs ss q : Nat) (env : EncodeEnv) (ctx : JpgCtx)
    (evs : List CallbackEvent)
    (hop : ctx.operation = JpegOp.encoding)
    (hinfo : noInfoReady evs = true) :
    (encodeStride JPEG_YCBCR_COLORSPACE JPEG_420_SUBSAMPLING d = 512
      ∧ encodeStride JPEG_YCBCR_COLORSPACE JPEG_422_SUBSAMPLING d = 256
      ∧ encodeStride JPEG_YCBCR_COLORSPACE JPEG_444_SUBSAMPLING d = 128
      ∧ (∀ ss2, encodeStride JPEG_GRAYSCALE_COLORSPACE ss2 d = 128)
      ∧ (∀ ss2, encodeStride JPEG_CMYK_COLORSPACE ss2 d = 128))
    ∧ (∀ s t i st,
        Effect.convertCall s t i st ∈
            (JPEG_Encode ctx0 false (some img) cs ss q env).effects →
        st = encodeStride cs ss ctx0.rgbDataSize
          ∧ (JPEG_Encode ctx0 false (some img) cs ss q env).ctx.rgbDataSize =
              encodeStride cs ss ctx0.rgbDataSize)
    ∧ ((runCallbacks ctx evs).1.rgbDataSize = ctx.rgbDataSize
        ∧ ∀ s t i st, Effect.convertCall s t i st ∈ (runCallbacks ctx evs).2 →
            st = ctx.rgbDataSize) := by
  refine ⟨⟨rfl, rfl, rfl, fun _ => rfl, fun _ => rfl⟩, ?_, ?_, ?_⟩
  · intro s t i st hmem
    by_cases h1 : img.bpp ≠ IMAGE_BPP_RGB565 ∧ img.bpp ≠ IMAGE_BPP_GRAYSCALE
    · simp [JPEG_Encode, h1] at hmem
    · by_cases h2 : cs ≠ JPEG_GRAYSCALE_COLORSPACE ∧ cs ≠ JPEG_YCBCR_COLORSPACE
          ∧ cs ≠ JPEG_CMYK_COLORSPACE
      · simp [JPEG_Encode, h1, h2] at hmem
      · by_cases h3 : ss ≠ JPEG_420_SUBSAMPLING ∧ ss ≠ JPEG_422_SUBSAMPLING
            ∧ ss ≠ JPEG_444_SUBSAMPLING
        · simp [JPEG_Encode, h1, h2, h3] at hmem
        · by_cases h4 : img.w % 8 ≠ 0 ∨ img.h % 8 ≠ 0
              ∨ (img.w % 16 ≠ 0 ∧ cs = JPEG_YCBCR_COLORSPACE
                  ∧ ss ≠ JPEG_444_SUBSAMPLING)
              ∨ (img.h % 16 ≠ 0 ∧ cs = JPEG_YCBCR_COLORSPACE
                  ∧ ss = JPEG_420_SUBSAMPLING)
          · simp [JPEG_Encode, h1, h2, h3, h4] at hmem
          · by_cases h5 : q < JPEG_IMAGE_QUALITY_MIN ∨ q > JPEG_IMAGE_QUALITY_MAX
            · simp [JPEG_Encode, h1, h2, h3, h4, h5] at hmem
            · by_cases h6 : env.getFnOk
              · by_cases h7 : env.configOk
                · constructor
                  · have := hmem
                    simp [JPEG_Encode, h1, h2, h3, h4, h5, h6, h7] at this
                    exact this.2.2.2
                  · simp [JPEG_Encode, h1, h2, h3, h4, h5, h6, h7]
                · simp [JPEG_Encode, h1, h2, h3, h4, h5, h6, h7] at hmem
              · simp [JPEG_Encode, h1, h2, h3, h4, h5, h6] at hmem
  · exact (runCallbacks_encode_inv ctx evs hop hinfo).2.1
  · exact (runCallbacks_encode_inv ctx evs hop hinfo).2.2.2.1

/-- C8 witness: at concrete encode-operation states the stride table
yields 512 for 4:2:0, the stride installed and passed by `JPEG_Encode`
equals the lookup value, and an encode need-input signal converts with
the unchanged stride. -/
theorem c8_stride_lookup_witness :
    encodeStride JPEG_YCBCR_COLORSPACE JPEG_420_SUBSAMPLING 0 = 512
    ∧ ((runCallbacks ⟨0, 0, zeroConf, JpegOp.encoding, 0, 2, 0, 512, 0, 0, 0, 0⟩
          [CallbackEvent.getData 0 ⟨true, none, 1, 64⟩]).1.rgbDataSize =
        (⟨0, 0, zeroConf, JpegOp.encoding, 0, 2, 0, 512, 0, 0, 0, 0⟩ : JpgCtx).rgbDataSize) :=
  ⟨(c8_stride_lookup 0 zeroCtx emptyImage 0 0 0 allOkEncEnv
      ⟨0, 0, zeroConf, JpegOp.encoding, 0, 2, 0, 512, 0, 0, 0, 0⟩
      [CallbackEvent.getData 0 ⟨true, none, 1, 64⟩] rfl rfl).1.1,
   (c8_stride_lookup 0 zeroCtx emptyImage 0 0 0 allOkEncEnv
      ⟨0, 0, zeroConf, JpegOp.encoding, 0, 2, 0, 512, 0, 0, 0, 0⟩
      [CallbackEvent.getData 0 ⟨true, none, 1, 64⟩] rfl rfl).2.2.1⟩

/-- During decode, one engine signal preserves the operation kind and
the sample-buffer pointer/size fields; every storage read it issues
requests at most the fixed bitstream-buffer size, and every fresh output
target it hands the engine is the full static sample buffer. -/
theorem stepCallback_decode_inv (ctx : JpgCtx) (ev : CallbackEvent)
    (hop : ctx.operation = JpegOp.decoding)
    (hyp : ctx.yuvDataPtr = yuvDataBufferAddr)
    (hys : ctx.yuvDataSize = YUV_DATA_BUFFER_SIZE) :
    (stepCallback ctx ev).1.operation = JpegOp.decoding
    ∧ (stepCallback ctx ev).1.yuvDataPtr = yuvDataBufferAddr
    ∧ (stepCallback ctx ev).1.yuvDataSize = YUV_DATA_BUFFER_SIZE
    ∧ (∀ p m g ok, Effect.fRead p m g ok ∈ (stepCallback ctx ev).2 →
        m = JPG_DATA_BUFFER_SIZE)
    ∧ (∀ p l, Effect.halConfigOutput p l ∈ (stepCallback ctx ev).2 →
        p = yuvDataBufferAddr ∧ l = YUV_DATA_BUFFER_SIZE) := by
  cases ev with
  | infoReady p e =>
      by_cases h0 : e.allocPtr = 0 <;>
        simp [stepCallback, HAL_JPEG_InfoReadyCallback, hop, hyp, hys, h0]
  | getData pb e =>
      cases hre : e.readRes with
      | none =>
          by_cases hne : pb = ctx.jpgDataSize <;>
            by_cases hl : e.lseekOk <;>
            simp [stepCallback, HAL_JPEG_GetDataCallback, hop, hre, hne, hl,
              hyp, hys] <;>
            exact fun p m g hp hm hg => hm
      | some got =>
          by_cases hne : pb = ctx.jpgDataSize <;>
            by_cases hl : e.lseekOk <;>
            simp [stepCallback, HAL_JPEG_GetDataCallback, hop, hre, hne, hl,
              hyp, hys] <;>
            exact fun p m g hp hm hg => hm
  | dataReady op os e =>
      simp [stepCallback, HAL_JPEG_DataReadyCallback, hop, hyp, hys]

/-- A decode run of engine signals keeps the sample-buffer fields at the
static buffer, reads at most the fixed chunk size from storage, and
hands the engine only the full static sample buffer as a fresh output
target. -/
theorem runCallbacks_decode_inv (ctx : JpgCtx) (evs : List CallbackEvent)
    (hop : ctx.operation = JpegOp.decoding)
    (hyp : ctx.yuvDataPtr = yuvDataBufferAddr)
    (hys : ctx.yuvDataSize = YUV_DATA_BUFFER_SIZE) :
    (runCallbacks ctx evs).1.operation = JpegOp.decoding
    ∧ (runCallbacks ctx evs).1.yuvDataPtr = yuvDataBufferAddr
    ∧ (runCallbacks ctx evs).1.yuvDataSize = YUV_DATA_BUFFER_SIZE
    ∧ (∀ p m g ok, Effect.fRead p m g ok ∈ (runCallbacks ctx evs).2 →
        m = JPG_DATA_BUFFER_SIZE)
    ∧ (∀ p l, Effect.halConfigOutput p l ∈ (runCallbacks ctx evs).2 →
        p = yuvDataBufferAddr ∧ l = YUV_DATA_BUFFER_SIZE) := by
  induction evs generalizing ctx with
  | nil => simp [runCallbacks, hop, hyp, hys]
  | cons ev evs ih =>
      have hstep := stepCallback_decode_inv ctx ev hop hyp hys
      have hih := ih (stepCallback ctx ev).1 hstep.1 hstep.2.1 hstep.2.2.1
      refine ⟨?_, ?_, ?_, ?_, ?_⟩
      · simpa [runCallbacks] using hih.1
      · simpa [runCallbacks] using hih.2.1
      · simpa [runCallbacks] using hih.2.2.1
      · intro p m g ok hmem
        rw [runCallbacks] at hmem
        simp only [List.mem_append] at hmem
        cases hmem with
        | inl h => exact hstep.2.2.2.1 p m g ok h
        | inr h => exact hih.2.2.2.1 p m g ok h
      · intro p l hmem
        rw [runCallbacks] at hmem
        simp only [List.mem_append] at hmem
        cases hmem with
        | inl h => exact hstep.2.2.2.2 p l h
        | inr h => exact hih.2.2.2.2 p l h

/-- C9: the two staging buffers keep their compile-time sizes (768-byte
sample buffer, 512-byte bitstream buffer) for every image: along any
decode run starting from the entry point's setup the sample-buffer
pointer and size fields never change, every storage refill requests at
most the fixed bitstream-buffer size, and every fresh output target
handed to the engine is the full static sample buffer; along any encode
run every fresh output target handed to the engine is the full static
bitstream buffer. -/
theorem c9_staging_buffers_constant (got : Nat) (evs : List CallbackEvent)
    (ctxe : JpgCtx) (evse : List CallbackEvent)
    (hope : ctxe.operation = JpegOp.encoding)
    (hjpe : ctxe.jpgDataPtr = jpgDataBufferAddr)
    (hinfo : noInfoReady evse = true) :
    (YUV_DATA_BUFFER_SIZE = 768 ∧ JPG_DATA_BUFFER_SIZE = 512)
    ∧ ((runCallbacks (readSetupCtx got) evs).1.yuvDataPtr = yuvDataBufferAddr
        ∧ (runCallbacks (readSetupCtx got) evs).1.yuvDataSize =
            YUV_DATA_BUFFER_SIZE)
    ∧ (∀ p m g ok, Effect.fRead p m g ok ∈ (runCallbacks (readSetupCtx got) evs).2 →
        m = JPG_DATA_BUFFER_SIZE)
    ∧ (∀ p l, Effect.halConfigOutput p l ∈ (runCallbacks (readSetupCtx got) evs).2 →
        p = yuvDataBufferAddr ∧ l = YUV_DATA_BUFFER_SIZE)
    ∧ (∀ p l, Effect.halConfigOutput p l ∈ (runCallbacks ctxe evse).2 →
        p = jpgDataBufferAddr ∧ l = JPG_DATA_BUFFER_SIZE) := by
  have hdec := runCallbacks_decode_inv (readSetupCtx got) evs rfl rfl rfl
  have henc := runCallbacks_encode_inv ctxe evse hope hinfo
  refine ⟨⟨rfl, rfl⟩, ⟨hdec.2.1, hdec.2.2.1⟩, hdec.2.2.2.1, hdec.2.2.2.2, ?_⟩
  intro p l hmem
  have := henc.2.2.2.2 p l hmem
  rw [hjpe] at this
  exact this

/-- C9 witness: a decode refill signal on the setup context requests
exactly the 512-byte chunk size, and an encode have-output signal hands
back the full 512-byte static bitstream buffer. -/
theorem c9_staging_buffers_constant_witness :
    YUV_DATA_BUFFER_SIZE = 768
    ∧ (∀ p m g ok, Effect.fRead p m g ok ∈
        (runCallbacks (readSetupCtx 512)
          [CallbackEvent.getData 512 ⟨true, some 512, 0, 0⟩]).2 →
        m = JPG_DATA_BUFFER_SIZE)
    ∧ (∀ p l, Effect.halConfigOutput p l ∈
        (runCallbacks ⟨0, 0, zeroConf, JpegOp.encoding, 0, 2, 0, 512, 0, 0, jpgDataBufferAddr, 0⟩
          [CallbackEvent.dataReady 7 9 ⟨0, true⟩]).2 →
        p = jpgDataBufferAddr ∧ l = JPG_DATA_BUFFER_SIZE) :=
  ⟨(c9_staging_buffers_constant 512
      [CallbackEvent.getData 512 ⟨true, some 512, 0, 0⟩]
      ⟨0, 0, zeroConf, JpegOp.encoding, 0, 2, 0, 512, 0, 0, jpgDataBufferAddr, 0⟩
      [CallbackEvent.dataReady 7 9 ⟨0, true⟩] rfl rfl rfl).1.1,
   (c9_staging_buffers_constant 512
      [CallbackEvent.getData 512 ⟨true, some 512, 0, 0⟩]
      ⟨0, 0, zeroConf, JpegOp.encoding, 0, 2, 0, 512, 0, 0, jpgDataBufferAddr, 0⟩
      [CallbackEvent.dataReady 7 9 ⟨0, true⟩] rfl rfl rfl).2.2.1,
   (c9_staging_buffers_constant 512
      [CallbackEvent.getData 512 ⟨true, some 512, 0, 0⟩]
      ⟨0, 0, zeroConf, JpegOp.encoding, 0, 2, 0, 512, 0, 0, jpgDataBufferAddr, 0⟩
      [CallbackEvent.dataReady 7 9 ⟨0, true⟩] rfl rfl rfl).2.2.2.2⟩

/-- C10: when a decode operation fails (engine status not OK) after a
header-ready signal in its run allocated a non-null pixel buffer, the
entry point returns `OpNotCompleted` with the caller's image left empty
(null data pointer), the global session context zeroed by the teardown
(erasing the only stored copy of the buffer pointer), and the
allocation visible in the effect trace — so the buffer is never handed
to the caller. -/
theorem c10_failed_decode_leaks_buffer (ctx0 : JpgCtx) (img0 : ImageT)
    (env : ReadEnv) (pInfo : JpegConf) (ienv : InfoReadyEnv)
    (pre post : List CallbackEvent) (r : Nat)
    (hseek : env.seekOk = true) (hread : env.firstRead = some r)
    (hfail : env.decodeOk = false)
    (hevs : env.events = pre ++ CallbackEvent.infoReady pInfo ienv :: post)
    (halloc : ienv.allocPtr ≠ 0) :
    (readJPEGHW ctx0 (some img0) false env).res = Err.OpNotCompleted
    ∧ (readJPEGHW ctx0 (some img0) false env).img = some emptyImage
    ∧ emptyImage.data = 0
    ∧ (readJPEGHW ctx0 (some img0) false env).ctx = zeroCtx
    ∧ Effect.xallocCall
        (u32 (pInfo.ImageWidth * pInfo.ImageHeight *
          (if pInfo.ColorSpace = JPEG_GRAYSCALE_COLORSPACE then IMAGE_BPP_GRAYSCALE
           else IMAGE_BPP_RGB565)))
        ienv.allocPtr ∈ (readJPEGHW ctx0 (some img0) false env).effects := by
  refine ⟨?_, ?_, rfl, ?_, ?_⟩
  · simp [readJPEGHW, hseek, hread, hfail]
  · simp [readJPEGHW, hseek, hread, hfail]
  · simp [readJPEGHW, hseek, hread, hfail]
  · have hmem : Effect.xallocCall
        (u32 (pInfo.ImageWidth * pInfo.ImageHeight *
          (if pInfo.ColorSpace = JPEG_GRAYSCALE_COLORSPACE then IMAGE_BPP_GRAYSCALE
           else IMAGE_BPP_RGB565)))
        ienv.allocPtr ∈ (runCallbacks (readSetupCtx r) env.events).2 := by
      rw [hevs, runCallbacks_append]
      simp only [List.mem_append]
      right
      rw [runCallbacks]
      simp only [List.mem_append]
      left
      simp [stepCallback, HAL_JPEG_InfoReadyCallback]
    have hlift : ∀ x : Effect,
        x ∈ (runCallbacks (readSetupCtx r) env.events).2 →
        x ∈ (readJPEGHW ctx0 (some img0) false env).effects := by
      intro x hx
      simp [readJPEGHW, hseek, hread, hfail]
      tauto
    exact hlift _ hmem

/-- C10 witness: a failing decode whose only signal allocated a pixel
buffer at address 77 returns `OpNotCompleted`, an empty image and a
zeroed context while the trace records the allocation. -/
theorem c10_failed_decode_leaks_buffer_witness :
    (readJPEGHW zeroCtx (some emptyImage) false
        ⟨true, some 2, [CallbackEvent.infoReady ⟨0, 0, 8, 8, 0⟩ ⟨77, 1⟩], false⟩).res =
      Err.OpNotCompleted
    ∧ (readJPEGHW zeroCtx (some emptyImage) false
        ⟨true, some 2, [CallbackEvent.infoReady ⟨0, 0, 8, 8, 0⟩ ⟨77, 1⟩], false⟩).img =
        some emptyImage
    ∧ (readJPEGHW zeroCtx (some emptyImage) false
        ⟨true, some 2, [CallbackEvent.infoReady ⟨0, 0, 8, 8, 0⟩ ⟨77, 1⟩], false⟩).ctx =
        zeroCtx := by
  have h := c10_failed_decode_leaks_buffer zeroCtx emptyImage
    ⟨true, some 2, [CallbackEvent.infoReady ⟨0, 0, 8, 8, 0⟩ ⟨77, 1⟩], false⟩
    ⟨0, 0, 8, 8, 0⟩ ⟨77, 1⟩ [] [] 2 rfl rfl rfl rfl (by decide)
  exact ⟨h.1, h.2.1, h.2.2.2.1⟩

end StmIpl
